import Mathlib

set_option linter.unnecessarySeqFocus false

/-!
Verification of the regression-scoring and scenario-synthesis core of the
demoapp performance-gate repository.  The Python sources are shallowly
embedded: Python floats become rationals, dicts become association lists
with explicit truthiness, and fallible code returns Option/Except.  All
definitions are fuel-based or structural so that they reduce inside the
kernel.
-/

namespace DemoApp

/-- Models Python str.startswith: a prefix test on the character lists. -/
def pyStartsWith (s pre : String) : Bool := pre.toList.isPrefixOf s.toList

/-- Models Python str.replace(old, new): replaces all non-overlapping
occurrences, scanning left to right.  Fuel-based (fuel = input length) so
that it reduces in the kernel; every call site in the modelled code uses a
non-empty pattern, for which this agrees with Python. -/
def pyReplaceAux (pat rep : List Char) : ℕ → List Char → List Char
  | 0, cs => cs
  | _ + 1, [] => []
  | fuel + 1, c :: rest =>
    if pat.isPrefixOf (c :: rest) then
      rep ++ pyReplaceAux pat rep fuel (List.drop pat.length (c :: rest))
    else
      c :: pyReplaceAux pat rep fuel rest

/-- Python s.replace(pat, rep) on strings. -/
def pyReplace (s pat rep : String) : String :=
  String.mk (pyReplaceAux pat.toList rep.toList s.toList.length s.toList)

/-- Models Python max(a, b): the second argument wins only when strictly
larger.  Kept as a plain if-then-else so that it reduces in the kernel. -/
def pyMax (a b : ℚ) : ℚ := if a < b then b else a

namespace ScoreGen

/-- A metrics dictionary, one per endpoint key, as found under
aggregate.summaries of a report document: a finite map from field names
(such as "p95", "mean", "count") to numbers. -/
structure Stats where
  fields : List (String × ℚ)
deriving DecidableEq

/-- Models Python stats.get(key, 0): the field value, or the default when
the field is absent. -/
def Stats.get (s : Stats) (k : String) (d : ℚ) : ℚ := (s.fields.lookup k).getD d

/-- Python truthiness of a dict: the empty dict is falsy. -/
def Stats.truthy (s : Stats) : Bool := ! s.fields.isEmpty

/-- The summaries block of one report document, in iteration order. -/
abbrev Summaries := List (String × Stats)

/-- Models baseline_summaries.get(key): None when the key is absent. -/
def findStats (m : Summaries) (k : String) : Option Stats := m.lookup k

/-- Python truthiness of the value of baseline_summaries.get(key):
None is falsy, and so is a present-but-empty stats dict. -/
def optTruthy : Option Stats → Bool
  | none => false
  | some s => s.truthy

/-- The penalty factor of src/simple_score_generator.py line 40. -/
def penalty_factor : ℚ := 1 / 2

/-- The metric-key prefix of src/simple_score_generator.py line 41
(the source calls it api_prefix). -/
def api_pfx : String := "plugins.metrics-by-endpoint.response_time."

/-- One row of endpoint_results (src/simple_score_generator.py
lines 110-121). -/
structure EndpointResult where
  path : String
  p95_latest : ℚ
  p95_base : ℚ
  pqi_score : ℚ
  status : String
  avg_latency : ℚ
  count : ℚ
  min_latency : ℚ
  max_latency : ℚ
  p99_latency : ℚ
deriving DecidableEq

/-- One iteration of the endpoint loop of generate_report
(src/simple_score_generator.py lines 44-121): none when the key is
filtered out (wrong metric prefix, or the remaining path is not an
application API), otherwise the stored per-endpoint record.  The
baseline branch mirrors the source's `if not baseline_stats:`
(Python truthiness: absent key or empty dict). -/
def processEntry (baseline_summaries : Summaries) (key : String) (pr_stats : Stats) :
    Option EndpointResult :=
  if ! pyStartsWith key api_pfx then none
  else
    let api_path := pyReplace key api_pfx ""
    if ! pyStartsWith api_path "/api/" then none
    else
      let baseline_stats := findStats baseline_summaries key
      let pr_p95 := pr_stats.get "p95" 0
      let pr_avg := pr_stats.get "mean" 0
      let pr_count := pr_stats.get "count" 0
      let pr_min := pr_stats.get "min" 0
      let pr_max := pr_stats.get "max" 0
      let pr_p99 := pr_stats.get "p99" 0
      if ! optTruthy baseline_stats then
        let status := if pr_p95 > 50 then "FAIL" else if pr_p95 > 20 then "WARN" else "PASS"
        some ⟨api_path, pr_p95, 0, 100, status, pr_avg, pr_count, pr_min, pr_max, pr_p99⟩
      else
        let baseline_p95 := (baseline_stats.getD ⟨[]⟩).get "p95" 0
        let latency_increase := pr_p95 - baseline_p95
        let penalty := (pyMax 0 latency_increase) * penalty_factor
        let pqi_score := 100 - penalty
        let status := if pqi_score < 90 then "FAIL" else if pqi_score < 95 then "WARN" else "PASS"
        some ⟨api_path, pr_p95, baseline_p95, pqi_score, status, pr_avg, pr_count, pr_min, pr_max, pr_p99⟩

/-- The summary counters carried through the loop (lines 34-37 and
103-121).  total_endpoints is incremented exactly when a result row is
appended, passing on PASS, failing on FAIL or WARN. -/
structure LoopState where
  endpoint_results : List EndpointResult
  total_endpoints : ℕ
  passing_endpoints : ℕ
  failing_endpoints : ℕ
deriving DecidableEq

/-- Counter and row update for one kept endpoint (lines 55 and 103-121). -/
def pushResult (st : LoopState) (r : EndpointResult) : LoopState :=
  { endpoint_results := st.endpoint_results ++ [r]
    total_endpoints := st.total_endpoints + 1
    passing_endpoints := if r.status = "PASS" then st.passing_endpoints + 1 else st.passing_endpoints
    failing_endpoints :=
      if r.status = "PASS" then st.failing_endpoints
      else if r.status = "FAIL" ∨ r.status = "WARN" then st.failing_endpoints + 1
      else st.failing_endpoints }

/-- The endpoint loop of generate_report (lines 44-121). -/
def loop (baseline_summaries : Summaries) : Summaries → LoopState → LoopState
  | [], st => st
  | (key, pr_stats) :: rest, st =>
    match processEntry baseline_summaries key pr_stats with
    | none => loop baseline_summaries rest st
    | some r => loop baseline_summaries rest (pushResult st r)

/-- The scoring output of generate_report (src/simple_score_generator.py
lines 34-137), stripped of the HTML rendering: the endpoint rows, the
counters, and the summary metrics of lines 125-137. -/
structure Report where
  endpoint_results : List EndpointResult
  total_endpoints : ℕ
  passing_endpoints : ℕ
  failing_endpoints : ℕ
  success_rate : ℚ
  overall_avg_latency : ℚ
deriving DecidableEq

/-- generate_report on the two already-extracted summaries blocks. -/
def generate_report (baseline_summaries pr_summaries : Summaries) : Report :=
  let st := loop baseline_summaries pr_summaries ⟨[], 0, 0, 0⟩
  let success_rate : ℚ :=
    if st.total_endpoints > 0 then ((st.passing_endpoints : ℚ) / (st.total_endpoints : ℚ)) * 100
    else 100
  let overall_avg_latency : ℚ :=
    if st.total_endpoints > 0 then
      ((st.endpoint_results.map EndpointResult.avg_latency).sum) / (st.total_endpoints : ℚ)
    else 0
  { endpoint_results := st.endpoint_results
    total_endpoints := st.total_endpoints
    passing_endpoints := st.passing_endpoints
    failing_endpoints := st.failing_endpoints
    success_rate := success_rate
    overall_avg_latency := overall_avg_latency }

/-- The endpoint filter of the loop (lines 46 and 52): the key carries
the metric prefix and the remaining path is an application API. -/
def passesFilter (key : String) : Bool :=
  pyStartsWith key api_pfx && pyStartsWith (pyReplace key api_pfx "") "/api/"

/-- The rows kept by the loop, in order. -/
def keptResults (baseline_summaries : Summaries) (l : Summaries) : List EndpointResult :=
  l.filterMap (fun kv => processEntry baseline_summaries kv.1 kv.2)

/-- A concrete filtered-in metric key for the examples. -/
def exKey : String := api_pfx ++ "/api/login"

/-- Candidate stats with p95 = 1000. -/
def exStatsPr : Stats := ⟨[("p95", 1000)]⟩

/-- Baseline stats with p95 = 10. -/
def exStatsBase : Stats := ⟨[("p95", 10)]⟩

/-- Candidate stats with p95 = 60 (used for the absolute FAIL threshold). -/
def exStats60 : Stats := ⟨[("p95", 60)]⟩

/-- Candidate stats with no p95 field at all. -/
def exStatsNoP95 : Stats := ⟨[("p99", 5)]⟩

/-- A baseline with one ordinary entry for exKey. -/
def exBaseline : Summaries := [(exKey, exStatsBase)]

/-- A baseline whose entry for exKey is present but empty (falsy). -/
def exBaselineEmptyEntry : Summaries := [(exKey, ⟨[]⟩)]

end ScoreGen

namespace Gate

/-- The gate outcome of §4.3: verify_score.py prints and exits; allowed
means exit code 0. -/
structure GateOutcome where
  score : ℚ
  threshold : ℚ
  allowed : Bool
deriving DecidableEq

/-- The required score of src/verify_score.py line 4. -/
def SCORE_THRESHOLD : ℚ := 100

/-- Models src/verify_score.py lines 14-22: the script exits 1 (blocked)
exactly when score < threshold, else exits 0 (allowed). -/
def decide (score threshold : ℚ) : GateOutcome :=
  ⟨score, threshold, ! Decidable.decide (score < threshold)⟩

end Gate

namespace SingleMetric

/-- Modelled from the spec: the single-metric scoring mode of §4.2(b) is
not present under src/ (only the per-endpoint scorer is), so its penalty
is taken from the spec's words: regression = candidate - baseline; zero
penalty when regression ≤ 0, else regression times the penalty factor. -/
def penalty (baseline candidate penaltyFactor : ℚ) : ℚ :=
  if candidate - baseline ≤ 0 then 0 else (candidate - baseline) * penaltyFactor

/-- Modelled from the spec: single-metric score = max(0, 100 - penalty),
floored at 0 in this mode. -/
def score (baseline candidate penaltyFactor : ℚ) : ℚ :=
  pyMax 0 (100 - penalty baseline candidate penaltyFactor)

end SingleMetric

namespace PyJson

/-- JSON values as produced by json.loads.  Numbers are kept exactly as
rationals; objects keep their members in insertion order (Python's dict
would let a duplicate key win last — the modelled documents have distinct
keys). -/
inductive Json where
  | null
  | bool (b : Bool)
  | num (q : ℚ)
  | str (s : String)
  | arr (elems : List Json)
  | obj (members : List (String × Json))

/-- JSON whitespace (json/decoder.py WHITESPACE_STR). -/
def isJsonWs (c : Char) : Bool := c = ' ' || c = '\t' || c = '\n' || c = '\r'

def skipWs : List Char → List Char
  | [] => []
  | c :: cs => if isJsonWs c then skipWs cs else c :: cs

def hexVal (c : Char) : Option ℕ :=
  if '0' ≤ c ∧ c ≤ '9' then some (c.toNat - '0'.toNat)
  else if 'a' ≤ c ∧ c ≤ 'f' then some (c.toNat - 'a'.toNat + 10)
  else if 'A' ≤ c ∧ c ≤ 'F' then some (c.toNat - 'A'.toNat + 10)
  else none

/-- Models py_scanstring (json/decoder.py) in strict mode, entered just
after the opening quote: literal control characters are rejected, the
eight simple escapes and \uXXXX are decoded.  Deviation: \uXXXX in the
surrogate range is rejected rather than paired. -/
def scanString : List Char → List Char → Option (String × List Char)
  | _, [] => none
  | acc, c :: cs =>
    if c = '"' then some (String.mk acc.reverse, cs)
    else if c = '\\' then
      match cs with
      | [] => none
      | e :: cs1 =>
        if e = '"' then scanString ('"' :: acc) cs1
        else if e = '\\' then scanString ('\\' :: acc) cs1
        else if e = '/' then scanString ('/' :: acc) cs1
        else if e = 'b' then scanString (Char.ofNat 8 :: acc) cs1
        else if e = 'f' then scanString (Char.ofNat 12 :: acc) cs1
        else if e = 'n' then scanString ('\n' :: acc) cs1
        else if e = 'r' then scanString ('\r' :: acc) cs1
        else if e = 't' then scanString ('\t' :: acc) cs1
        else if e = 'u' then
          match cs1 with
          | h1 :: h2 :: h3 :: h4 :: cs2 =>
            match hexVal h1, hexVal h2, hexVal h3, hexVal h4 with
            | some a, some b, some c2, some d =>
              let n := ((a * 16 + b) * 16 + c2) * 16 + d
              if 0xD800 ≤ n ∧ n < 0xE000 then none
              else scanString (Char.ofNat n :: acc) cs2
            | _, _, _, _ => none
          | _ => none
        else none
    else if c.toNat < 32 then none
    else scanString (c :: acc) cs

def digitVal (c : Char) : ℕ := c.toNat - '0'.toNat

def digitsToNat (ds : List Char) : ℕ := ds.foldl (fun n c => n * 10 + digitVal c) 0

/-- Integer part of NUMBER_RE (json/scanner.py): 0, or a nonzero digit
followed by digits. -/
def scanIntPart : List Char → Option (ℕ × List Char)
  | [] => none
  | c :: rest =>
    if c = '0' then some (0, rest)
    else if c.isDigit then
      let s := List.span Char.isDigit (c :: rest)
      some (digitsToNat s.1, s.2)
    else none

/-- Optional fraction part: a dot followed by at least one digit,
otherwise nothing is consumed (as the regex backtracks). -/
def scanFrac : List Char → ℕ × ℕ × List Char
  | '.' :: rest =>
    match List.span Char.isDigit rest with
    | ([], _) => (0, 0, '.' :: rest)
    | (ds, rest2) => (digitsToNat ds, ds.length, rest2)
  | cs => (0, 0, cs)

/-- Optional exponent part: e or E, an optional sign, then at least one
digit, otherwise nothing is consumed. -/
def scanExp : List Char → ℤ × List Char
  | [] => (0, [])
  | c :: rest =>
    if c = 'e' ∨ c = 'E' then
      let signed : ℤ × List Char :=
        match rest with
        | '+' :: r => (1, r)
        | '-' :: r => (-1, r)
        | _ => (1, rest)
      match List.span Char.isDigit signed.2 with
      | ([], _) => (0, c :: rest)
      | (ds, rest2) => (signed.1 * (digitsToNat ds : ℤ), rest2)
    else (0, c :: rest)

def qpow10 : ℤ → ℚ
  | .ofNat n => (10 : ℚ) ^ n
  | .negSucc n => 1 / (10 : ℚ) ^ (n + 1)

/-- Models the NUMBER_RE match of json/scanner.py at the current
position, with the matched value as an exact rational. -/
def scanNumber (cs : List Char) : Option (ℚ × List Char) :=
  let signed : ℚ × List Char :=
    match cs with
    | '-' :: rest => (-1, rest)
    | _ => (1, cs)
  match scanIntPart signed.2 with
  | none => none
  | some (ip, rest1) =>
    let f := scanFrac rest1
    let e := scanExp f.2.2
    let mant : ℚ := (ip : ℚ) + (f.1 : ℚ) / (10 : ℚ) ^ f.2.1
    some (signed.1 * mant * qpow10 e.1, e.2)

mutual

/-- Models _scan_once of json/scanner.py, positioned at the first
character of a value.  Fuel-based so that it reduces in the kernel; the
top-level entry point supplies ample fuel.  Deviation: the NaN and
Infinity constants are rejected rather than parsed (they have no rational
value). -/
def parseValue : ℕ → List Char → Option (Json × List Char)
  | 0, _ => none
  | _ + 1, [] => none
  | fuel + 1, c :: cs =>
    if c = '"' then
      match scanString [] cs with
      | some (s, rest) => some (.str s, rest)
      | none => none
    else if c = '\x7b' then parseObjBody fuel (skipWs cs)
    else if c = '[' then parseArrBody fuel (skipWs cs)
    else if c = 'n' then
      match cs with
      | 'u' :: 'l' :: 'l' :: rest => some (.null, rest)
      | _ => none
    else if c = 't' then
      match cs with
      | 'r' :: 'u' :: 'e' :: rest => some (.bool true, rest)
      | _ => none
    else if c = 'f' then
      match cs with
      | 'a' :: 'l' :: 's' :: 'e' :: rest => some (.bool false, rest)
      | _ => none
    else
      match scanNumber (c :: cs) with
      | some (q, rest) => some (.num q, rest)
      | none => none

/-- Object body after the opening brace and whitespace (JSONObject of
json/decoder.py). -/
def parseObjBody : ℕ → List Char → Option (Json × List Char)
  | 0, _ => none
  | _ + 1, [] => none
  | fuel + 1, c :: cs =>
    if c = '\x7d' then some (.obj [], cs)
    else parseMembers fuel [] (c :: cs)

/-- The member loop of JSONObject: a quoted key, a colon, a value, then
either the closing brace or a comma and the next member. -/
def parseMembers : ℕ → List (String × Json) → List Char → Option (Json × List Char)
  | 0, _, _ => none
  | fuel + 1, acc, cs =>
    match cs with
    | '"' :: cs1 =>
      match scanString [] cs1 with
      | none => none
      | some (key, cs2) =>
        match skipWs cs2 with
        | ':' :: cs3 =>
          match parseValue fuel (skipWs cs3) with
          | none => none
          | some (v, cs4) =>
            match skipWs cs4 with
            | '\x7d' :: cs5 => some (.obj (acc ++ [(key, v)]), cs5)
            | ',' :: cs5 => parseMembers fuel (acc ++ [(key, v)]) (skipWs cs5)
            | _ => none
        | _ => none
    | _ => none

/-- Array body after the opening bracket and whitespace (JSONArray of
json/decoder.py). -/
def parseArrBody : ℕ → List Char → Option (Json × List Char)
  | 0, _ => none
  | _ + 1, [] => none
  | fuel + 1, c :: cs =>
    if c = ']' then some (.arr [], cs)
    else parseItems fuel [] (c :: cs)

/-- The item loop of JSONArray: a value, then either the closing bracket
or a comma and the next item. -/
def parseItems : ℕ → List Json → List Char → Option (Json × List Char)
  | 0, _, _ => none
  | fuel + 1, acc, cs =>
    match parseValue fuel cs with
    | none => none
    | some (v, cs1) =>
      match skipWs cs1 with
      | ']' :: cs2 => some (.arr (acc ++ [v]), cs2)
      | ',' :: cs2 => parseItems fuel (acc ++ [v]) (skipWs cs2)
      | _ => none

end

/-- Models json.loads (JSONDecoder.decode): leading whitespace, one
value, trailing whitespace, and nothing else; None on any decode error. -/
def parseJson (s : String) : Option Json :=
  let cs := skipWs s.toList
  match parseValue (4 * cs.length + 4) cs with
  | some (v, rest) => if skipWs rest = [] then some v else none
  | none => none

end PyJson

namespace PyUrl

/-- The fields of urllib.parse.ParseResult used by the modelled code. -/
structure SplitResult where
  scheme : String
  netloc : String
  path : String
  params : String
  query : String
  fragment : String
deriving DecidableEq

/-- Split at the first occurrence of c: (before, after, delimiter
dropped), or none when c is absent.  Models str.split(c, 1) and
str.find(c). -/
def splitFirst (c : Char) : List Char → Option (List Char × List Char)
  | [] => none
  | x :: xs =>
    if x = c then some ([], xs)
    else
      match splitFirst c xs with
      | some (a, b) => some (x :: a, b)
      | none => none

/-- Split at the last occurrence of c, modelling str.rfind. -/
def splitLast (c : Char) (cs : List Char) : Option (List Char × List Char) :=
  match splitFirst c cs.reverse with
  | some (a, b) => some (b.reverse, a.reverse)
  | none => none

/-- scheme_chars of urllib/parse.py. -/
def isSchemeChar (c : Char) : Bool :=
  c.isAlpha || c.isDigit || c = '+' || c = '-' || c = '.'

/-- The netloc delimiters of _splitnetloc. -/
def isNetlocEnd (c : Char) : Bool := c = '/' || c = '?' || c = '#'

/-- Fragment split then query split of urlsplit, applied after the
netloc: returns (path, query, fragment). -/
def splitFragQuery (cs : List Char) : List Char × List Char × List Char :=
  let fq : List Char × List Char :=
    match splitFirst '#' cs with
    | some (a, b) => (a, b)
    | none => (cs, [])
  let pq : List Char × List Char :=
    match splitFirst '?' fq.1 with
    | some (a, b) => (a, b)
    | none => (fq.1, [])
  (pq.1, pq.2, fq.2)

/-- Models urllib.parse.urlsplit of CPython 3.11 on character lists:
remove tab, CR and LF anywhere; detect a scheme (a leading ASCII letter
then scheme chars up to a colon, lowered); after a leading "//" take the
netloc up to the first of /, ? or #, raising ValueError("Invalid IPv6
URL") on an unbalanced square bracket; then split off fragment and query.
The non-ASCII NFKC check of _checknetloc is not modelled (treated as
passing).  Returns (scheme, netloc, path, query, fragment). -/
def urlsplitChars (cs0 : List Char) :
    Except String (List Char × List Char × List Char × List Char × List Char) :=
  let cs := cs0.filter (fun c => ! (c = '\t' || c = '\r' || c = '\n'))
  let schemeAndRest : List Char × List Char :=
    match splitFirst ':' cs with
    | some (p :: pre, rest) =>
      if p.isAlpha && (p :: pre).all isSchemeChar then
        ((p :: pre).map Char.toLower, rest)
      else ([], cs)
    | _ => ([], cs)
  match schemeAndRest.2 with
  | '/' :: '/' :: rest =>
    let netloc := rest.takeWhile (fun c => ! isNetlocEnd c)
    let rest2 := rest.dropWhile (fun c => ! isNetlocEnd c)
    if (netloc.contains '[' && ! netloc.contains ']') ||
        (netloc.contains ']' && ! netloc.contains '[') then
      .error "Invalid IPv6 URL"
    else
      let pqf := splitFragQuery rest2
      .ok (schemeAndRest.1, netloc, pqf.1, pqf.2.1, pqf.2.2)
  | other =>
    let pqf := splitFragQuery other
    .ok (schemeAndRest.1, [], pqf.1, pqf.2.1, pqf.2.2)

/-- The schemes for which urlparse splits params off the path. -/
def uses_params : List String :=
  ["", "ftp", "hdl", "prospero", "http", "imap", "https", "shttp", "rtsp",
   "rtspu", "sip", "sips", "mms", "sftp", "tel"]

/-- Models _splitparams: the params are everything after the first
semicolon of the last path segment. -/
def splitparams (cs : List Char) : List Char × List Char :=
  match splitLast '/' cs with
  | some (beforeSlash, afterSlash) =>
    match splitFirst ';' afterSlash with
    | some (a, b) => (beforeSlash ++ '/' :: a, b)
    | none => (cs, [])
  | none =>
    match splitFirst ';' cs with
    | some (a, b) => (a, b)
    | none => (cs, [])

/-- Models urllib.parse.urlparse: urlsplit, then the params split for
the schemes that use it.  The only failure is the ValueError of
urlsplit. -/
def urlparse (url : String) : Except String SplitResult :=
  match urlsplitChars url.toList with
  | .error e => .error e
  | .ok (scheme, netloc, path0, query, fragment) =>
    let pp : List Char × List Char :=
      if uses_params.contains (String.mk scheme) && path0.contains ';' then
        splitparams path0
      else (path0, [])
    .ok ⟨String.mk scheme, String.mk netloc, String.mk pp.1, String.mk pp.2,
         String.mk query, String.mk fragment⟩

end PyUrl

namespace Artillery

/-- One recorded call of the api-calls JSON document: {url, method?,
post_data?}.  The reader accesses method and post_data with dict.get, so
both are optional here. -/
structure RecordedCall where
  url : String
  method : Option String
  post_data : Option String

instance : Inhabited RecordedCall := ⟨⟨"", none, none⟩⟩

/-- One entry of the flow list: {get: {url}} or {post: {url, json}}. -/
inductive FlowStep where
  | get (url : String)
  | post (url : String) (jsonBody : PyJson.Json)

instance : Inhabited FlowStep := ⟨.get ""⟩

/-- The url field of a flow step. -/
def FlowStep.stepUrl : FlowStep → String
  | .get u => u
  | .post u _ => u

/-- The synthesized scenario document, minus the YAML serialization:
config target, one phase (duration, arrivalRate), and the flow. -/
structure ArtilleryConfig where
  target : String
  duration : ℕ
  arrival_rate : ℕ
  flow : List FlowStep

/-- The failures of generate_artillery_yaml, named as in the spec's
error taxonomy: emptyInput is the IndexError on apis[0] for an empty
list, malformedUrl the ValueError raised by urlparse, invalidJsonBody
the JSONDecodeError raised by json.loads on a POST body. -/
inductive SynthError where
  | emptyInput
  | malformedUrl (msg : String)
  | invalidJsonBody
deriving DecidableEq

/-- Python str.upper() on the ASCII method names. -/
def pyUpper (s : String) : String := String.mk (s.toList.map Char.toUpper)

/-- Python truthiness of the optional target argument: None and the
empty string are falsy. -/
def targetTruthy : Option String → Bool
  | none => false
  | some t => ! Decidable.decide (t = "")

/-- One iteration of the flow loop (src/generate_artillery_yaml.py lines
15-21): parse the call's url for its path; a POST gets its body parsed
as JSON (an absent body defaults to the empty JSON object, an unparseable
one raises); any other method gets a plain get step with no body. -/
def buildStep (api : RecordedCall) : Except SynthError FlowStep :=
  match PyUrl.urlparse api.url with
  | .error e => .error (.malformedUrl e)
  | .ok parsed =>
    let method := pyUpper (api.method.getD "GET")
    if method = "POST" then
      match PyJson.parseJson (api.post_data.getD "\x7b\x7d") with
      | some j => .ok (.post parsed.path j)
      | none => .error .invalidJsonBody
    else
      .ok (.get parsed.path)

/-- The flow loop over all calls, in order, stopping at the first
failure as the Python loop would. -/
def buildFlows : List RecordedCall → Except SynthError (List FlowStep)
  | [] => .ok []
  | api :: rest =>
    match buildStep api with
    | .error e => .error e
    | .ok s =>
      match buildFlows rest with
      | .error e => .error e
      | .ok ss => .ok (s :: ss)

/-- Target derivation from the first call (lines 9-13): scheme://netloc
of the parsed first url. -/
def deriveTarget (first : RecordedCall) : Except SynthError String :=
  match PyUrl.urlparse first.url with
  | .ok p => .ok (p.scheme ++ "://" ++ p.netloc)
  | .error e => .error (.malformedUrl e)

/-- Models generate_artillery_yaml (src/generate_artillery_yaml.py lines
3-38) minus the file i/o: an empty call list fails on apis[0]
(emptyInput); a falsy target argument is replaced by the derived one;
each call yields one flow step, in input order. -/
def generate_artillery_yaml (apis : List RecordedCall) (target : Option String)
    (duration : ℕ) (arrival_rate : ℕ) : Except SynthError ArtilleryConfig :=
  match apis with
  | [] => .error .emptyInput
  | first :: _ =>
    match (if targetTruthy target then .ok (target.getD "") else deriveTarget first :
        Except SynthError String) with
    | .error e => .error e
    | .ok tgt =>
      match buildFlows apis with
      | .error e => .error e
      | .ok flows => .ok ⟨tgt, duration, arrival_rate, flows⟩

/-- Two concrete recorded calls for the synthesizer examples: a POST with
a JSON body and a query string, then a GET with a fragment. -/
def exCalls : List RecordedCall :=
  [⟨"https://demoapp-ashen.vercel.app/api/login?q=1", some "POST",
      some "\x7b\"user\":\"admin\"\x7d"⟩,
   ⟨"https://demoapp-ashen.vercel.app/api/home#top", some "GET", none⟩]

/-- A concrete POST call with the spec's example body. -/
def exPostCall : RecordedCall :=
  ⟨"https://demoapp-ashen.vercel.app/api/login", some "POST",
    some "\x7b\"user\":\"admin\"\x7d"⟩

/-- A call whose url makes urlparse raise (unbalanced IPv6 bracket). -/
def exBadCall : RecordedCall := ⟨"http://[::1", none, none⟩

end Artillery

/-! Helper lemmas shared by the claim theorems. -/

theorem pyMax_eq_max (a b : ℚ) : pyMax a b = max a b := by
  unfold pyMax
  rcases lt_or_le a b with h | h
  · simp [h, max_eq_right h.le]
  · simp [not_lt.mpr h, max_eq_left h]

namespace ScoreGen

theorem processEntry_of_truthy (b : Summaries) (key : String) (ps bs : Stats)
    (hk : pyStartsWith key api_pfx = true)
    (hp : pyStartsWith (pyReplace key api_pfx "") "/api/" = true)
    (hfind : findStats b key = some bs)
    (ht : bs.truthy = true) :
    processEntry b key ps =
      some ⟨pyReplace key api_pfx "", ps.get "p95" 0, bs.get "p95" 0,
        100 - (pyMax 0 (ps.get "p95" 0 - bs.get "p95" 0)) * penalty_factor,
        (if 100 - (pyMax 0 (ps.get "p95" 0 - bs.get "p95" 0)) * penalty_factor < 90 then "FAIL"
         else if 100 - (pyMax 0 (ps.get "p95" 0 - bs.get "p95" 0)) * penalty_factor < 95 then "WARN"
         else "PASS"),
        ps.get "mean" 0, ps.get "count" 0, ps.get "min" 0, ps.get "max" 0, ps.get "p99" 0⟩ := by
  simp [processEntry, hk, hp, hfind, optTruthy, ht]

theorem processEntry_of_falsy (b : Summaries) (key : String) (ps : Stats)
    (hk : pyStartsWith key api_pfx = true)
    (hp : pyStartsWith (pyReplace key api_pfx "") "/api/" = true)
    (hfalsy : optTruthy (findStats b key) = false) :
    processEntry b key ps =
      some ⟨pyReplace key api_pfx "", ps.get "p95" 0, 0, 100,
        (if ps.get "p95" 0 > 50 then "FAIL"
         else if ps.get "p95" 0 > 20 then "WARN"
         else "PASS"),
        ps.get "mean" 0, ps.get "count" 0, ps.get "min" 0, ps.get "max" 0, ps.get "p99" 0⟩ := by
  simp [processEntry, hk, hp, hfalsy]

end ScoreGen

/-- C1 (counterexample): the per-endpoint score formula does not hold for
every candidate endpoint that has a baseline entry with the same key: a
present-but-empty baseline entry is falsy in the source's
`if not baseline_stats:`, so the endpoint is scored as new (pqiScore 100)
instead of by the delta formula, which here would give 100 - 500 = -400. -/
theorem c1_score_formula_counterexample :
    ScoreGen.findStats ScoreGen.exBaselineEmptyEntry ScoreGen.exKey = some ⟨[]⟩ ∧
    (ScoreGen.processEntry ScoreGen.exBaselineEmptyEntry ScoreGen.exKey
        ScoreGen.exStatsPr).map ScoreGen.EndpointResult.pqi_score = some 100 ∧
    ¬ ((100 : ℚ) =
        100 - (max 0 (ScoreGen.exStatsPr.get "p95" 0 - ScoreGen.Stats.get ⟨[]⟩ "p95" 0)) *
          ScoreGen.penalty_factor) := by
  refine ⟨by decide, rfl, ?_⟩
  have h1 : ScoreGen.exStatsPr.get "p95" 0 = 1000 := rfl
  have h2 : ScoreGen.Stats.get ⟨[]⟩ "p95" 0 = 0 := rfl
  rw [h1, h2]
  rw [show (1000 : ℚ) - 0 = 1000 by norm_num,
    max_eq_right (by norm_num : (0 : ℚ) ≤ 1000)]
  norm_num [ScoreGen.penalty_factor]

/-- C1 (amended): in per-endpoint mode, for every candidate endpoint
matching the filter that has a non-empty (truthy) baseline entry with the
same key, the score equals exactly 100 - max(0, candidate.p95 -
baseline.p95) * penaltyFactor with penaltyFactor 0.5, unclamped below 0,
and the status is FAIL when score < 90, WARN when 90 ≤ score < 95, PASS
when score ≥ 95. -/
theorem c1_truthy_baseline_score_formula
    (b : ScoreGen.Summaries) (key : String) (ps bs : ScoreGen.Stats)
    (hk : pyStartsWith key ScoreGen.api_pfx = true)
    (hp : pyStartsWith (pyReplace key ScoreGen.api_pfx "") "/api/" = true)
    (hfind : ScoreGen.findStats b key = some bs)
    (ht : bs.truthy = true) :
    ∃ r, ScoreGen.processEntry b key ps = some r ∧
      r.pqi_score = 100 - (max 0 (ps.get "p95" 0 - bs.get "p95" 0)) * ScoreGen.penalty_factor ∧
      ScoreGen.penalty_factor = 1 / 2 ∧
      r.status = (if r.pqi_score < 90 then "FAIL"
        else if r.pqi_score < 95 then "WARN" else "PASS") := by
  refine ⟨_, ScoreGen.processEntry_of_truthy b key ps bs hk hp hfind ht, ?_, rfl, rfl⟩
  rw [pyMax_eq_max]

/-- C1 witness: baseline p95 = 10, candidate p95 = 1000 gives
pqiScore = -395 and status FAIL. -/
theorem c1_truthy_baseline_score_formula_witness :
    ∃ r, ScoreGen.processEntry ScoreGen.exBaseline ScoreGen.exKey ScoreGen.exStatsPr = some r ∧
      r.pqi_score = -395 ∧ r.status = "FAIL" := by
  obtain ⟨r, hr, hscore, -, hstatus⟩ :=
    c1_truthy_baseline_score_formula ScoreGen.exBaseline ScoreGen.exKey
      ScoreGen.exStatsPr ScoreGen.exStatsBase (by decide) (by decide) (by decide) (by decide)
  have h1 : ScoreGen.exStatsPr.get "p95" 0 = 1000 := rfl
  have h2 : ScoreGen.exStatsBase.get "p95" 0 = 10 := rfl
  rw [h1, h2] at hscore
  rw [show (1000 : ℚ) - 10 = 990 by norm_num,
    max_eq_right (by norm_num : (0 : ℚ) ≤ 990)] at hscore
  have hscore' : r.pqi_score = -395 := by
    rw [hscore]; norm_num [ScoreGen.penalty_factor]
  refine ⟨r, hr, hscore', ?_⟩
  rw [hstatus, hscore']
  norm_num

/-- C2: in per-endpoint mode, a candidate endpoint matching the filter
with no baseline entry with the same key gets pqiScore 100
unconditionally, and status by absolute thresholds on its own p95:
FAIL above 50, WARN above 20, else PASS. -/
theorem c2_new_endpoint_absolute_thresholds
    (b : ScoreGen.Summaries) (key : String) (ps : ScoreGen.Stats)
    (hk : pyStartsWith key ScoreGen.api_pfx = true)
    (hp : pyStartsWith (pyReplace key ScoreGen.api_pfx "") "/api/" = true)
    (hfind : ScoreGen.findStats b key = none) :
    ∃ r, ScoreGen.processEntry b key ps = some r ∧
      r.pqi_score = 100 ∧
      r.status = (if ps.get "p95" 0 > 50 then "FAIL"
        else if ps.get "p95" 0 > 20 then "WARN" else "PASS") := by
  refine ⟨_, ScoreGen.processEntry_of_falsy b key ps hk hp ?_, rfl, rfl⟩
  simp [ScoreGen.optTruthy, hfind]

/-- C2 witness: no baseline entry, candidate p95 = 60 gives score 100 and
status FAIL (60 > 50). -/
theorem c2_new_endpoint_absolute_thresholds_witness :
    ∃ r, ScoreGen.processEntry [] ScoreGen.exKey ScoreGen.exStats60 = some r ∧
      r.pqi_score = 100 ∧ r.status = "FAIL" := by
  obtain ⟨r, hr, hs, hst⟩ :=
    c2_new_endpoint_absolute_thresholds [] ScoreGen.exKey ScoreGen.exStats60
      (by decide) (by decide) rfl
  refine ⟨r, hr, hs, ?_⟩
  rw [hst, show ScoreGen.exStats60.get "p95" 0 = 60 from rfl]
  norm_num

/-- C10: the per-endpoint scorer reads every missing metric field as 0
(dict.get with default 0) instead of failing: a filtered-in candidate
with no p95 field whose baseline entry exists (with a non-negative
baseline p95 reading) still produces a row, with pqiScore 100. -/
theorem c10_missing_p95_reads_zero
    (b : ScoreGen.Summaries) (key : String) (ps bs : ScoreGen.Stats)
    (hk : pyStartsWith key ScoreGen.api_pfx = true)
    (hp : pyStartsWith (pyReplace key ScoreGen.api_pfx "") "/api/" = true)
    (hnone : ps.fields.lookup "p95" = none)
    (hfind : ScoreGen.findStats b key = some bs)
    (hnn : 0 ≤ bs.get "p95" 0) :
    ∃ r, ScoreGen.processEntry b key ps = some r ∧ r.pqi_score = 100 := by
  have hps : ps.get "p95" 0 = 0 := by simp [ScoreGen.Stats.get, hnone]
  cases ht : bs.truthy with
  | true =>
    refine ⟨_, ScoreGen.processEntry_of_truthy b key ps bs hk hp hfind ht, ?_⟩
    show 100 - (pyMax 0 (ps.get "p95" 0 - bs.get "p95" 0)) * ScoreGen.penalty_factor = 100
    rw [hps]
    have hmax : pyMax 0 (0 - bs.get "p95" 0) = 0 := by
      unfold pyMax
      rw [if_neg]
      push_neg
      linarith
    rw [hmax]
    ring
  | false =>
    refine ⟨_, ScoreGen.processEntry_of_falsy b key ps hk hp ?_, rfl⟩
    simp [ScoreGen.optTruthy, hfind, ht]

/-- C10 witness: candidate with only a p99 field (p95 absent), baseline
p95 = 10: the scorer still yields a row with pqiScore 100. -/
theorem c10_missing_p95_reads_zero_witness :
    ∃ r, ScoreGen.processEntry ScoreGen.exBaseline ScoreGen.exKey ScoreGen.exStatsNoP95 = some r ∧
      r.pqi_score = 100 := by
  exact c10_missing_p95_reads_zero ScoreGen.exBaseline ScoreGen.exKey
    ScoreGen.exStatsNoP95 ScoreGen.exStatsBase (by decide) (by decide) rfl (by decide)
    (by rw [show ScoreGen.exStatsBase.get "p95" 0 = 10 from rfl]; norm_num)

namespace ScoreGen

theorem processEntry_status (b : Summaries) (key : String) (ps : Stats)
    (r : EndpointResult) (h : processEntry b key ps = some r) :
    r.status = "PASS" ∨ r.status = "WARN" ∨ r.status = "FAIL" := by
  simp only [processEntry] at h
  split at h
  · exact absurd h (by simp)
  · split at h
    · exact absurd h (by simp)
    · split at h <;>
      · obtain rfl := Option.some.inj h
        simp only []
        split
        · simp
        · split <;> simp

theorem processEntry_isSome (b : Summaries) (key : String) (ps : Stats) :
    (processEntry b key ps).isSome = passesFilter key := by
  simp only [processEntry, passesFilter]
  cases h1 : pyStartsWith key api_pfx with
  | false => simp [h1]
  | true =>
    cases h2 : pyStartsWith (pyReplace key api_pfx "") "/api/" with
    | false => simp [h1, h2]
    | true =>
      simp only [h1, h2, Bool.not_true, Bool.false_eq_true, if_false, Bool.and_self]
      split <;> rfl

theorem keptResults_nil (b : Summaries) : keptResults b [] = [] := rfl

theorem keptResults_cons (b : Summaries) (key : String) (ps : Stats) (rest : Summaries) :
    keptResults b ((key, ps) :: rest) =
      (match processEntry b key ps with
        | some r => r :: keptResults b rest
        | none => keptResults b rest) := by
  simp only [keptResults, List.filterMap_cons]
  split <;> rename_i heq <;> rw [heq]

theorem keptResults_status (b : Summaries) (l : Summaries) :
    ∀ r ∈ keptResults b l, r.status = "PASS" ∨ r.status = "WARN" ∨ r.status = "FAIL" := by
  intro r hr
  obtain ⟨kv, _, hpe⟩ := List.mem_filterMap.mp hr
  exact processEntry_status b kv.1 kv.2 r hpe

theorem keptResults_length (b : Summaries) (l : Summaries) :
    (keptResults b l).length = l.countP (fun kv => passesFilter kv.1) := by
  induction l with
  | nil => rfl
  | cons e rest ih =>
    obtain ⟨k, s⟩ := e
    rw [keptResults_cons, List.countP_cons]
    have hs := processEntry_isSome b k s
    cases h : processEntry b k s with
    | none =>
      rw [h] at hs
      simp only [Option.isSome_none] at hs
      simp [ih, ← hs]
    | some r =>
      rw [h] at hs
      simp only [Option.isSome_some] at hs
      simp [ih, ← hs]

theorem loop_spec (b : Summaries) (l : Summaries) (st : LoopState) :
    loop b l st =
      ⟨st.endpoint_results ++ keptResults b l,
       st.total_endpoints + (keptResults b l).length,
       st.passing_endpoints + (keptResults b l).countP (fun r => r.status == "PASS"),
       st.failing_endpoints +
         (keptResults b l).countP (fun r => r.status == "FAIL" || r.status == "WARN")⟩ := by
  induction l generalizing st with
  | nil => simp [loop, keptResults_nil]
  | cons e rest ih =>
    obtain ⟨key, ps⟩ := e
    rw [keptResults_cons]
    cases h : processEntry b key ps with
    | none => simp only [loop, h, ih]
    | some r =>
      simp only [loop, h, ih, pushResult]
      have hst := processEntry_status b key ps r h
      simp only [LoopState.mk.injEq]
      refine ⟨by simp, by simp [List.length_cons]; omega, ?_, ?_⟩
      · rcases hst with h1 | h1 | h1 <;> simp [h1, List.countP_cons] <;> omega
      · rcases hst with h1 | h1 | h1 <;> simp [h1, List.countP_cons] <;> omega

theorem count_split_of_status (l : List EndpointResult)
    (h : ∀ r ∈ l, r.status = "PASS" ∨ r.status = "WARN" ∨ r.status = "FAIL") :
    l.countP (fun r => r.status == "PASS") +
      l.countP (fun r => r.status == "FAIL" || r.status == "WARN") = l.length := by
  induction l with
  | nil => rfl
  | cons r tail ih =>
    have hr := h r (by simp)
    have htail := ih (fun x hx => h x (by simp [hx]))
    rcases hr with h1 | h1 | h1 <;>
      simp [List.countP_cons, h1] <;> omega

end ScoreGen

/-- C9: in every per-endpoint scoring pass, each filtered-in candidate
endpoint is counted exactly once with exactly one status among PASS,
WARN, FAIL; WARN counts toward the failing counter, so passingCount +
failingCount = totalEndpoints, and the success rate counts only PASS
endpoints. -/
theorem c9_counting_invariants (b pr : ScoreGen.Summaries) :
    let rep := ScoreGen.generate_report b pr
    rep.passing_endpoints + rep.failing_endpoints = rep.total_endpoints ∧
    rep.total_endpoints = rep.endpoint_results.length ∧
    rep.total_endpoints = pr.countP (fun kv => ScoreGen.passesFilter kv.1) ∧
    rep.endpoint_results.all
      (fun r => r.status == "PASS" || r.status == "WARN" || r.status == "FAIL") = true ∧
    rep.passing_endpoints = rep.endpoint_results.countP (fun r => r.status == "PASS") ∧
    rep.failing_endpoints =
      rep.endpoint_results.countP (fun r => r.status == "FAIL" || r.status == "WARN") ∧
    rep.success_rate =
      (if 0 < rep.total_endpoints
       then (rep.passing_endpoints : ℚ) / (rep.total_endpoints : ℚ) * 100
       else 100) := by
  have hloop := ScoreGen.loop_spec b pr ⟨[], 0, 0, 0⟩
  have hwf := ScoreGen.keptResults_status b pr
  refine ⟨?_, ?_, ?_, ?_, ?_, ?_, ?_⟩
  · show (ScoreGen.generate_report b pr).passing_endpoints +
      (ScoreGen.generate_report b pr).failing_endpoints =
      (ScoreGen.generate_report b pr).total_endpoints
    simp only [ScoreGen.generate_report, hloop]
    simpa using ScoreGen.count_split_of_status _ hwf
  · show (ScoreGen.generate_report b pr).total_endpoints =
      (ScoreGen.generate_report b pr).endpoint_results.length
    simp [ScoreGen.generate_report, hloop]
  · show (ScoreGen.generate_report b pr).total_endpoints =
      pr.countP (fun kv => ScoreGen.passesFilter kv.1)
    simp [ScoreGen.generate_report, hloop, ScoreGen.keptResults_length]
  · show (ScoreGen.generate_report b pr).endpoint_results.all
      (fun r => r.status == "PASS" || r.status == "WARN" || r.status == "FAIL") = true
    simp only [ScoreGen.generate_report, hloop]
    rw [List.all_eq_true]
    intro r hr
    have := hwf r (by simpa using hr)
    rcases this with h1 | h1 | h1 <;> simp [h1]
  · show (ScoreGen.generate_report b pr).passing_endpoints =
      (ScoreGen.generate_report b pr).endpoint_results.countP (fun r => r.status == "PASS")
    simp [ScoreGen.generate_report, hloop]
  · show (ScoreGen.generate_report b pr).failing_endpoints =
      (ScoreGen.generate_report b pr).endpoint_results.countP
        (fun r => r.status == "FAIL" || r.status == "WARN")
    simp [ScoreGen.generate_report, hloop]
  · show (ScoreGen.generate_report b pr).success_rate =
      (if 0 < (ScoreGen.generate_report b pr).total_endpoints
       then ((ScoreGen.generate_report b pr).passing_endpoints : ℚ) /
          ((ScoreGen.generate_report b pr).total_endpoints : ℚ) * 100
       else 100)
    simp [ScoreGen.generate_report, hloop]

theorem gate_allowed_iff (s t : ℚ) : (Gate.decide s t).allowed = true ↔ t ≤ s := by
  simp [Gate.decide, not_lt]

/-- C5: the gate decision yields allowed = (score ≥ threshold);
decide(95, 100) is blocked, decide(100, 100) is allowed, decide(0, 100)
is blocked. -/
theorem c5_gate_allowed_iff_ge :
    (∀ score threshold : ℚ,
      (Gate.decide score threshold).allowed = true ↔ threshold ≤ score) ∧
    (Gate.decide 95 100).allowed = false ∧
    (Gate.decide 100 100).allowed = true ∧
    (Gate.decide 0 100).allowed = false := by
  refine ⟨gate_allowed_iff, ?_, ?_, ?_⟩
  · rw [Bool.eq_false_iff, Ne, gate_allowed_iff]
    norm_num
  · rw [gate_allowed_iff]
  · rw [Bool.eq_false_iff, Ne, gate_allowed_iff]
    norm_num

/-- C3 (spec-modelled: the single-metric scorer is not under src/): in
single-metric mode the score equals max(0, 100 - penalty), with zero
penalty for a non-positive regression and regression * penaltyFactor
otherwise; the score is floored at 0, and baseline 10 with candidate
1000 at penaltyFactor 0.5 yields exactly 0. -/
theorem c3_single_metric_floored :
    (∀ b c pf : ℚ, SingleMetric.score b c pf = max 0 (100 - SingleMetric.penalty b c pf)) ∧
    (∀ b c pf : ℚ, SingleMetric.penalty b c pf =
      (if c - b ≤ 0 then 0 else (c - b) * pf)) ∧
    (∀ b c pf : ℚ, 0 ≤ SingleMetric.score b c pf) ∧
    SingleMetric.score 10 1000 (1 / 2) = 0 := by
  refine ⟨?_, fun b c pf => rfl, ?_, ?_⟩
  · intro b c pf
    rw [SingleMetric.score, pyMax_eq_max]
  · intro b c pf
    rw [SingleMetric.score, pyMax_eq_max]
    exact le_max_left _ _
  · norm_num [SingleMetric.score, SingleMetric.penalty, pyMax]

namespace Artillery

theorem buildStep_ok_path (api : RecordedCall) (s : FlowStep)
    (h : buildStep api = .ok s) :
    ∃ p, PyUrl.urlparse api.url = .ok p ∧ s.stepUrl = p.path := by
  unfold buildStep at h
  cases hu : PyUrl.urlparse api.url with
  | error e => rw [hu] at h; exact absurd h (by simp)
  | ok p =>
    rw [hu] at h
    refine ⟨p, rfl, ?_⟩
    dsimp only at h
    split at h
    · cases hj : PyJson.parseJson (api.post_data.getD "\x7b\x7d") with
      | some j =>
        rw [hj] at h
        obtain rfl := Except.ok.inj h
        rfl
      | none => rw [hj] at h; exact absurd h (by simp)
    · obtain rfl := Except.ok.inj h
      rfl

theorem buildFlows_ok (l : List RecordedCall) (ss : List FlowStep)
    (h : buildFlows l = .ok ss) :
    ss.length = l.length ∧
    (∀ i, i < l.length → buildStep (l.getD i default) = .ok (ss.getD i default)) := by
  induction l generalizing ss with
  | nil =>
    simp only [buildFlows] at h
    obtain rfl := Except.ok.inj h
    exact ⟨rfl, fun i hi => absurd hi (by simp)⟩
  | cons a rest ih =>
    simp only [buildFlows] at h
    cases hs : buildStep a with
    | error e => rw [hs] at h; exact absurd h (by simp)
    | ok s =>
      rw [hs] at h
      cases hr : buildFlows rest with
      | error e => rw [hr] at h; exact absurd h (by simp)
      | ok tail =>
        rw [hr] at h
        obtain rfl := Except.ok.inj h
        obtain ⟨hlen, hget⟩ := ih tail hr
        refine ⟨by simp [hlen], ?_⟩
        intro i hi
        cases i with
        | zero => simpa using hs
        | succ j =>
          simp only [List.getD_cons_succ]
          exact hget j (by simpa using hi)

theorem generate_ok_flows (apis : List RecordedCall) (target : Option String)
    (d a : ℕ) (cfg : ArtilleryConfig)
    (h : generate_artillery_yaml apis target d a = .ok cfg) :
    buildFlows apis = .ok cfg.flow := by
  cases apis with
  | nil => exact absurd h (by simp [generate_artillery_yaml])
  | cons first rest =>
    simp only [generate_artillery_yaml] at h
    cases htgt : (if targetTruthy target then Except.ok (target.getD "")
        else deriveTarget first : Except SynthError String) with
    | error e => rw [htgt] at h; exact absurd h (by simp)
    | ok tgt =>
      rw [htgt] at h
      cases hbf : buildFlows (first :: rest) with
      | error e => rw [hbf] at h; exact absurd h (by simp)
      | ok flows =>
        rw [hbf] at h
        obtain rfl := Except.ok.inj h
        rfl

end Artillery

/-- C4: whenever the synthesizer accepts a list of recorded calls, the
flow has exactly one step per call in the same order (no deduplication,
no reordering), and the i-th step's url is the path component of the
i-th call's url (query string and fragment discarded by urlparse). -/
theorem c4_steps_preserve_count_and_paths (apis : List Artillery.RecordedCall)
    (target : Option String) (d a : ℕ) (cfg : Artillery.ArtilleryConfig)
    (h : Artillery.generate_artillery_yaml apis target d a = .ok cfg) :
    cfg.flow.length = apis.length ∧
    (∀ i, i < apis.length →
      ∃ p, PyUrl.urlparse ((apis.getD i default).url) = .ok p ∧
        (cfg.flow.getD i default).stepUrl = p.path) := by
  obtain ⟨hlen, hget⟩ := Artillery.buildFlows_ok apis cfg.flow
    (Artillery.generate_ok_flows apis target d a cfg h)
  exact ⟨hlen, fun i hi => Artillery.buildStep_ok_path _ _ (hget i hi)⟩

/-- C4 witness: two concrete calls produce two steps, in order, with the
query string and fragment stripped from the paths. -/
theorem c4_steps_preserve_count_and_paths_witness :
    ∃ cfg, Artillery.generate_artillery_yaml Artillery.exCalls none 30 2 = .ok cfg ∧
      cfg.flow.length = Artillery.exCalls.length ∧
      (∀ i, i < Artillery.exCalls.length →
        ∃ p, PyUrl.urlparse ((Artillery.exCalls.getD i default).url) = .ok p ∧
          (cfg.flow.getD i default).stepUrl = p.path) := by
  have h : Artillery.generate_artillery_yaml Artillery.exCalls none 30 2 =
      .ok ⟨"https://demoapp-ashen.vercel.app", 30, 2,
        [.post "/api/login" (.obj [("user", .str "admin")]), .get "/api/home"]⟩ := rfl
  exact ⟨_, h, c4_steps_preserve_count_and_paths Artillery.exCalls none 30 2 _ h⟩

/-- C6: for every recorded call whose url parses: a POST with a present,
parseable body gets that parsed JSON as the step body; a POST with an
absent body gets the empty JSON object; a POST with an unparseable body
fails with InvalidJsonBodyError; a non-POST gets a get step with no
body. -/
theorem c6_post_body_handling (api : Artillery.RecordedCall) (p : PyUrl.SplitResult)
    (hu : PyUrl.urlparse api.url = .ok p) :
    (Artillery.pyUpper (api.method.getD "GET") = "POST" →
      ((∀ b j, api.post_data = some b → PyJson.parseJson b = some j →
          Artillery.buildStep api = .ok (.post p.path j)) ∧
        (api.post_data = none →
          Artillery.buildStep api = .ok (.post p.path (.obj []))) ∧
        (∀ b, api.post_data = some b → PyJson.parseJson b = none →
          Artillery.buildStep api = .error .invalidJsonBody))) ∧
    (¬ Artillery.pyUpper (api.method.getD "GET") = "POST" →
      Artillery.buildStep api = .ok (.get p.path)) := by
  have hb : Artillery.buildStep api =
      (if Artillery.pyUpper (api.method.getD "GET") = "POST" then
        match PyJson.parseJson (api.post_data.getD "\x7b\x7d") with
        | some j => Except.ok (Artillery.FlowStep.post p.path j)
        | none => Except.error Artillery.SynthError.invalidJsonBody
       else Except.ok (Artillery.FlowStep.get p.path)) := by
    unfold Artillery.buildStep
    rw [hu]
  constructor
  · intro hm
    rw [hb, if_pos hm]
    refine ⟨?_, ?_, ?_⟩
    · intro b j hbody hj
      rw [hbody, Option.getD_some, hj]
    · intro hbody
      rw [hbody, Option.getD_none]
      rfl
    · intro b hbody hj
      rw [hbody, Option.getD_some, hj]
  · intro hm
    rw [hb, if_neg hm]

/-- C6 witness: a POST call with body '{"user":"admin"}' yields a step
with jsonBody {"user": "admin"}. -/
theorem c6_post_body_handling_witness :
    Artillery.buildStep Artillery.exPostCall =
      .ok (.post "/api/login" (.obj [("user", .str "admin")])) := by
  have h := c6_post_body_handling Artillery.exPostCall
    ⟨"https", "demoapp-ashen.vercel.app", "/api/login", "", "", ""⟩ rfl
  exact (h.1 rfl).1 _ _ rfl rfl

/-- C7: the empty list of recorded calls makes the synthesizer fail with
EmptyInputError (the IndexError on apis[0]); no scenario is produced. -/
theorem c7_empty_input_error (target : Option String) (d a : ℕ) :
    Artillery.generate_artillery_yaml [] target d a = .error .emptyInput := rfl

/-- C8: with no (truthy) override target, the synthesizer derives the
scenario target from the scheme and host of the first call's url, and
fails with MalformedUrlError whenever the first call's url cannot be
parsed (urlparse raises). -/
theorem c8_target_derivation (first : Artillery.RecordedCall)
    (rest : List Artillery.RecordedCall) (target : Option String) (d a : ℕ)
    (hfalsy : Artillery.targetTruthy target = false) :
    (∀ p cfg, PyUrl.urlparse first.url = .ok p →
      Artillery.generate_artillery_yaml (first :: rest) target d a = .ok cfg →
      cfg.target = p.scheme ++ "://" ++ p.netloc) ∧
    (∀ e, PyUrl.urlparse first.url = .error e →
      Artillery.generate_artillery_yaml (first :: rest) target d a =
        .error (.malformedUrl e)) := by
  have hif : (if Artillery.targetTruthy target then Except.ok (target.getD "")
      else Artillery.deriveTarget first : Except Artillery.SynthError String) =
      Artillery.deriveTarget first := by
    rw [hfalsy]
    simp
  constructor
  · intro p cfg hp hok
    simp only [Artillery.generate_artillery_yaml, hif] at hok
    unfold Artillery.deriveTarget at hok
    rw [hp] at hok
    dsimp only at hok
    cases hbf : Artillery.buildFlows (first :: rest) with
    | error e => rw [hbf] at hok; exact absurd hok (by simp)
    | ok flows =>
      rw [hbf] at hok
      obtain rfl := Except.ok.inj hok
      rfl
  · intro e he
    simp only [Artillery.generate_artillery_yaml, hif]
    unfold Artillery.deriveTarget
    rw [he]

/-- C8 witness: an unparseable first url (unbalanced IPv6 bracket) makes
the synthesizer fail with MalformedUrlError. -/
theorem c8_target_derivation_witness :
    Artillery.generate_artillery_yaml [Artillery.exBadCall] none 30 2 =
      .error (.malformedUrl "Invalid IPv6 URL") := by
  exact (c8_target_derivation Artillery.exBadCall [] none 30 2 rfl).2
    "Invalid IPv6 URL" rfl

end DemoApp
